import Mathlib

/-!
Verification of the panorama-acquisition pipeline of the `toolbelt`
repository, shallowly embedded in Lean 4.

The embedding follows the Python source files:
* `scripts/get_lookaround.py` — search-window expansion, tile index
  merging, nearest-panorama selection, cube-face retrieval and
  equirectangular assembly, success/failure counters, exit status;
* `scripts/get_streetview.py` — per-panorama download loop and counters;
* `scripts/grab_panorama.py` — tile-grid size and tile-mosaic stitching;
* `scripts/to_perspective.py` — equirectangular-to-perspective sampling
  grid and output naming.

Geographic coordinates are modelled as exact rationals; the Python
`math.sqrt` on nonnegative reals is modelled by `Real.sqrt` in theorem
statements, while the executable sort key compares the squared
distances (an order-equivalent key, see `sqDist_le_iff_sqrt_le`).
-/

namespace Toolbelt

/-- A panorama record as consumed from a provider coverage tile:
`id`, position (`lat`, `lon`) and capture date (from `pano.id`,
`pano.lat`, `pano.lon`, `pano.date` in the scripts).  Distinct object
instances can carry the same `id` with different remaining fields. -/
structure PanoRecord where
  id : String
  lat : ℚ
  lon : ℚ
  date : String
deriving DecidableEq

/-- Squared planar distance between two `(lat, lon)` points.  The source
`distance` function (`get_lookaround.py` line 83, `get_streetview.py`
line 59) is `sqrt ((lat1-lat2)^2 + (lon1-lon2)^2)`; `sqDist` is the
radicand, used as an order-equivalent sort key. -/
def sqDist (lat1 lon1 lat2 lon2 : ℚ) : ℚ :=
  (lat1 - lat2) ^ 2 + (lon1 - lon2) ^ 2

/-- Comparison used when sorting panoramas by distance to the target:
`p` comes no later than `q` when its (squared) distance to the target is
no larger.  This is the comparison performed by
`sorted(all_panos, key=lambda p: distance(p.lat, p.lon, target_lat, target_lon))`. -/
def panoKeyLe (tlat tlon : ℚ) (p q : PanoRecord) : Prop :=
  sqDist p.lat p.lon tlat tlon ≤ sqDist q.lat q.lon tlat tlon

instance (tlat tlon : ℚ) : DecidableRel (panoKeyLe tlat tlon) := fun p q =>
  inferInstanceAs (Decidable (sqDist p.lat p.lon tlat tlon ≤ sqDist q.lat q.lon tlat tlon))

/-- The `sorted_panos` list of `get_lookaround.py` line 88 / `get_streetview.py`
line 64: the fetched records sorted by distance to the target.  Python's
`sorted` is a stable comparison sort; it is modelled by Mathlib's stable
`List.insertionSort` on the same key comparison. -/
def sorted_panos (records : List PanoRecord) (tlat tlon : ℚ) : List PanoRecord :=
  List.insertionSort (panoKeyLe tlat tlon) records

/-- Source: `selected_panos = sorted_panos[:num_panos]` (`get_lookaround.py`
line 89, `get_streetview.py` line 65). -/
def selected_panos (records : List PanoRecord) (tlat tlon : ℚ) (count : ℕ) :
    List PanoRecord :=
  (sorted_panos records tlat tlon).take count

instance (tlat tlon : ℚ) : IsTotal PanoRecord (panoKeyLe tlat tlon) :=
  ⟨fun _ _ => le_total _ _⟩

instance (tlat tlon : ℚ) : IsTrans PanoRecord (panoKeyLe tlat tlon) :=
  ⟨fun _ _ _ => le_trans⟩

/-- There is always some `r` with `n ≤ 4 * r * r` (e.g. `r = n`). -/
def ceil_sqrt_quarter_exists (n : ℕ) : ∃ r : ℕ, n ≤ 4 * (r * r) :=
  ⟨n, by nlinarith⟩

/-- Least `r : ℕ` with `n ≤ 4 * r * r`, that is
`⌈ sqrt (n / 4) ⌉` — the value of `math.ceil(math.sqrt(num_panos / 4))`
for a natural `num_panos` (`get_lookaround.py` line 58). -/
def ceil_sqrt_quarter (n : ℕ) : ℕ :=
  Nat.find (ceil_sqrt_quarter_exists n)

/-- Source: `search_radius = max(1, math.ceil(math.sqrt(num_panos / 4)))`
(`get_lookaround.py` line 58). -/
def search_radius (num_panos : ℕ) : ℕ :=
  max 1 (ceil_sqrt_quarter num_panos)

/-- The set `tile_coords_to_check` (`get_lookaround.py` lines 60-63): the set of
tile coordinates `(initial_tile_x + dx, initial_tile_y + dy)` for `dx`
and `dy` ranging over `range(-search_radius, search_radius + 1)`. -/
def tile_coords_to_check (cx cy : ℤ) (radius : ℕ) : Finset (ℤ × ℤ) :=
  (Finset.Icc (-(radius : ℤ)) radius ×ˢ Finset.Icc (-(radius : ℤ)) radius).image
    (fun d => (cx + d.1, cy + d.2))

/-- A provider coverage-tile response: the list of panorama records it
carries (`tile.panos` in `get_lookaround.py`). -/
structure CoverageTile where
  panos : List PanoRecord
deriving DecidableEq

/-- One step of the `all_panos` accumulation (`get_lookaround.py`
lines 68-75): a failed tile fetch (`none`, the `except` branch) is
skipped; a successful tile appends its panos via
`all_panos.extend(tile.panos)` guarded by `if tile and tile.panos:`. -/
def fetchStep (all_panos : List PanoRecord) (t : Option CoverageTile) :
    List PanoRecord :=
  match t with
  | some tile => if tile.panos.isEmpty then all_panos else all_panos ++ tile.panos
  | none => all_panos

/-- The list `all_panos` as returned to the selector (`get_lookaround.py`
lines 65-81): the tile fetch results folded over `fetchStep`, starting
from the empty list. -/
def fetchIndex (tiles : List (Option CoverageTile)) : List PanoRecord :=
  tiles.foldl fetchStep []

/-- Result of the per-panorama face-download loop (`get_lookaround.py`
lines 103-115): the faces downloaded so far, the face indices for which
a fetch was attempted, and the `face_download_success` flag. -/
structure FaceDownload (F : Type) where
  faces : List F
  attempted : List ℕ
  success : Bool
deriving DecidableEq

/-- The face-download loop over a list of face indices: each index is
fetched in order; on the first failure the flag is cleared and the loop
`break`s, so no later index is attempted. -/
def downloadFacesFrom {F : Type} (fetch : ℕ → Except String F) :
    List ℕ → FaceDownload F
  | [] => ⟨[], [], true⟩
  | i :: rest =>
    match fetch i with
    | Except.ok f =>
      let r := downloadFacesFrom fetch rest
      ⟨f :: r.faces, i :: r.attempted, r.success⟩
    | Except.error _ => ⟨[], [i], false⟩

/-- Source: `for face_idx in range(0, 6)` (`get_lookaround.py` line 106). -/
def downloadFaces {F : Type} (fetch : ℕ → Except String F) : FaceDownload F :=
  downloadFacesFrom fetch (List.range 6)

/-- The assembly step (`get_lookaround.py` lines 117-129): only when
`face_download_success and len(faces) == 6` is
`lookaround.to_equirectangular` attempted; its failure is caught.
Returns the saved output (if any) and whether this panorama counts as a
success. -/
def assembleStep {F I : Type} (d : FaceDownload F)
    (to_equirectangular : List F → Except String I) : Option I × Bool :=
  if d.success = true ∧ d.faces.length = 6 then
    match to_equirectangular d.faces with
    | Except.ok img => (some img, true)
    | Except.error _ => (none, false)
  else (none, false)

/-- Processing of one selected panorama in the lookaround pipeline:
download the six faces, then assemble. -/
def processPanorama {F I : Type} (fetch : ℕ → Except String F)
    (to_equirectangular : List F → Except String I) : Option I × Bool :=
  assembleStep (downloadFaces fetch) to_equirectangular

/-- One iteration of the lookaround driver loop (`get_lookaround.py`
lines 100-129): the counter pair is advanced according to whether the
panorama was processed and saved successfully. -/
def lookStep {F I : Type} (counts : ℕ × ℕ)
    (p : (ℕ → Except String F) × (List F → Except String I)) : ℕ × ℕ :=
  if (processPanorama p.1 p.2).2 then (counts.1 + 1, counts.2)
  else (counts.1, counts.2 + 1)

/-- The lookaround driver loop (`get_lookaround.py` lines 97-129):
`successful_downloads` and `failed_downloads` accumulated over the
selected panoramas, each given by its face fetcher and assembler. -/
def runLookaround {F I : Type}
    (panos : List ((ℕ → Except String F) × (List F → Except String I))) :
    ℕ × ℕ :=
  panos.foldl lookStep (0, 0)

/-- One iteration of the streetview driver loop (`get_streetview.py`
lines 76-92).  The panorama's `try` block is summarised by its outcome:
`Except.error e` — an exception was raised (counted failed);
`Except.ok none` — `find_panorama_by_id` returned no result, so the
`if result:` body never runs (neither counter changes);
`Except.ok (some _)` — the panorama was saved (counted succeeded). -/
def streetStep (counts : ℕ × ℕ) (o : Except String (Option Unit)) : ℕ × ℕ :=
  match o with
  | Except.ok (some _) => (counts.1 + 1, counts.2)
  | Except.ok none => counts
  | Except.error _ => (counts.1, counts.2 + 1)

/-- The streetview driver loop: `successful_downloads` and
`failed_downloads` accumulated over the per-panorama outcomes. -/
def runStreetview (outcomes : List (Except String (Option Unit))) : ℕ × ℕ :=
  outcomes.foldl streetStep (0, 0)

/-- The summary epilogue shared by both scripts (`get_lookaround.py`
lines 137-141, `get_streetview.py` lines 100-104): the process exit code
(`sys.exit(1)` when nothing succeeded, normal termination — exit 0 —
otherwise) and whether the degraded-success warning is printed. -/
def final_report (succeeded failed : ℕ) : ℕ × Bool :=
  if succeeded = 0 then (1, false) else (0, decide (0 < failed))

/-- An RGB pixel value. -/
abbrev Color : Type := ℕ × ℕ × ℕ

/-- A tile raster after the standard-size resize: pixel lookup by
`(x, y)` within the standard 512 × 512 cell. -/
abbrev Tile : Type := ℕ → ℕ → Color

/-- A raster image: dimensions and pixel lookup. -/
structure Img where
  w : ℕ
  h : ℕ
  px : ℕ → ℕ → Color

/-- Constant `STANDARD_TILE_W` of the stitcher (`grab_panorama.py`). -/
def STANDARD_TILE_W : ℕ := 512

/-- Constant `STANDARD_TILE_H` of the stitcher. -/
def STANDARD_TILE_H : ℕ := 512

/-- Source: `get_tile_grid_size` (`grab_panorama.py`): `(2^zoom, 2^(zoom-1))`. -/
def get_tile_grid_size (zoom : ℕ) : ℕ × ℕ :=
  (2 ^ zoom, 2 ^ (zoom - 1))

/-- The grid cells `(x, y)` visited by the stitching loops (`for y in
range(y_tiles): for x in range(x_tiles):`). -/
def mosaic_cells (x_tiles y_tiles : ℕ) : List (ℕ × ℕ) :=
  (List.range y_tiles).flatMap (fun y => (List.range x_tiles).map (fun x => (x, y)))

/-- Counter `loaded_tile_count` (`grab_panorama.py` stitch loop): the number of
grid cells whose tile file was present and opened successfully
(modelled by `tileAt x y = some tile`). -/
def loaded_tile_count (x_tiles y_tiles : ℕ) (tileAt : ℕ → ℕ → Option Tile) : ℕ :=
  (mosaic_cells x_tiles y_tiles).countP (fun c => (tileAt c.1 c.2).isSome)

/-- Function `stitch_tiles` (`grab_panorama.py`): when no tile at all was loaded
the function logs and `return`s with no output file; otherwise a black
canvas of `STANDARD_TILE_W * x_tiles` by `STANDARD_TILE_H * y_tiles` is
created and every loaded tile is blitted at `(x*512, y*512)`, missing
cells staying black. -/
def stitch_px (tileAt : ℕ → ℕ → Option Tile) (u v : ℕ) : Color :=
  match tileAt (u / STANDARD_TILE_W) (v / STANDARD_TILE_H) with
  | some t => t (u % STANDARD_TILE_W) (v % STANDARD_TILE_H)
  | none => (0, 0, 0)

def stitch_tiles (x_tiles y_tiles : ℕ) (tileAt : ℕ → ℕ → Option Tile) :
    Option Img :=
  if loaded_tile_count x_tiles y_tiles tileAt = 0 then none
  else some
    { w := STANDARD_TILE_W * x_tiles
      h := STANDARD_TILE_H * y_tiles
      px := stitch_px tileAt }

/-- A concrete 512 × 512 tile raster used to instantiate the stitching
theorems. -/
def demo_tile : Tile := fun _ _ => (1, 2, 3)

/-- A concrete 2 × 1 mosaic: the left cell is loaded, the right cell is
missing. -/
def demo_tileAt : ℕ → ℕ → Option Tile := fun x _ =>
  if x = 0 then some demo_tile else none

/-- Name `output_filename` (`get_lookaround.py` line 120):
`f"{pano.id}_{zoom}.jpg"` (basename; the output directory prefix is
orthogonal to the naming contract). -/
def output_filename (id : String) (zoom : ℕ) : String :=
  id ++ "_" ++ toString zoom ++ ".jpg"

/-- Name `out_file` (`get_streetview.py` line 86):
`f"google_{pano.id}_{zoom}.jpg"` (basename). -/
def out_file (id : String) (zoom : ℕ) : String :=
  "google_" ++ id ++ "_" ++ toString zoom ++ ".jpg"

/-- Name `out_file_name` (`to_perspective.py`):
`f"{file_name}_split_{yaw}_{pitch}.jpg"` (basename). -/
def out_file_name (file_name : String) (yaw : ℕ) (pitch : ℤ) : String :=
  file_name ++ "_split_" ++ toString yaw ++ "_" ++ toString pitch ++ ".jpg"

/-- Source: `file_name = os.path.basename(input_path).split('.')[0]`
(`to_perspective.py`): the input file's basename up to the first dot,
i.e. the characters preceding the first '.' (the whole basename when it
contains none) — element 0 of the split. -/
def file_name_of (basename : String) : String :=
  String.mk (basename.toList.takeWhile (fun c => c ≠ '.'))

/-- External `py360convert.e2p` (third-party library, called in `to_perspective.py`):
returns a perspective raster whose dimensions are exactly the requested
`out_hw = (height, width)`.  The pixel content (rectilinear resampling of
the equirectangular sphere) is irrelevant to the claims verified here
and is abstracted as a wrapped lookup into the source raster. -/
def e2p (e_img : Img) (fov_deg : ℚ × ℚ) (u_deg : ℕ) (v_deg : ℤ)
    (out_hw : ℕ × ℕ) : Img :=
  { w := out_hw.2
    h := out_hw.1
    px := fun u v => e_img.px (u % max 1 e_img.w) (v % max 1 e_img.h) }

/-- Function `generate_and_save` (`to_perspective.py`): projects with
`out_hw = (1024, 1024)` hardcoded and names the output
`f"{file_name}_split_{yaw}_{pitch}.jpg"`. -/
def generate_and_save (e_img : Img) (file_name : String) (fov : ℚ)
    (pitch : ℤ) (yaw : ℕ) : Img × String :=
  (e2p e_img (fov, fov) yaw pitch (1024, 1024), out_file_name file_name yaw pitch)

/-- Source: `num_pics = 8` (`to_perspective.py`). -/
def num_pics : ℕ := 8

/-- Source: `yaw_vals = [i*(360//num_pics) for i in range(num_pics)]`. -/
def yaw_vals : List ℕ :=
  (List.range num_pics).map (fun i => i * (360 / num_pics))

/-- Source: `pitch_vals = [-30, 0, 30]`. -/
def pitch_vals : List ℤ := [-30, 0, 30]

/-- Source: `tasks = [(pitch, yaw) for pitch in pitch_vals for yaw in yaw_vals]`. -/
def tasks : List (ℤ × ℕ) :=
  pitch_vals.flatMap (fun pitch => yaw_vals.map (fun yaw => (pitch, yaw)))

/-- The perspective images (raster and file basename) emitted for one
assembled panorama by the sequential task loop of `pano_to_perspective`. -/
def perspective_outputs (e_img : Img) (file_name : String) (fov : ℚ) :
    List (Img × String) :=
  tasks.map (fun t => generate_and_save e_img file_name fov t.1 t.2)

theorem sqDist_nonneg (lat1 lon1 lat2 lon2 : ℚ) :
    0 ≤ sqDist lat1 lon1 lat2 lon2 := by
  unfold sqDist
  positivity

/-- The squared-distance key orders records exactly as the source's
`sqrt` distance does. -/
theorem sqDist_le_iff_sqrt_le (a b c d e f g h : ℚ) :
    Real.sqrt ((sqDist a b c d : ℚ) : ℝ) ≤ Real.sqrt ((sqDist e f g h : ℚ) : ℝ) ↔
      sqDist a b c d ≤ sqDist e f g h := by
  rw [Real.sqrt_le_sqrt_iff (by exact_mod_cast sqDist_nonneg e f g h)]
  exact_mod_cast Iff.rfl

/-- C1: for every list of panorama records and every target coordinate,
the selector sorts records in ascending order of Euclidean distance in
`(lat, lon)` space (`sqrt ((lat1-lat2)^2 + (lon1-lon2)^2)`, not
great-circle distance), records at equal distance retain their input
(fetch) order, and the output is truncated to the first `count` records;
for `count ≥ len records` it returns all records sorted. -/
theorem c1_selector_sorts_stably_and_truncates
    (records : List PanoRecord) (tlat tlon : ℚ) (count : ℕ) :
    List.Sorted (fun p q : PanoRecord =>
        Real.sqrt ((sqDist p.lat p.lon tlat tlon : ℚ) : ℝ)
          ≤ Real.sqrt ((sqDist q.lat q.lon tlat tlon : ℚ) : ℝ))
      (sorted_panos records tlat tlon)
    ∧ (sorted_panos records tlat tlon).Perm records
    ∧ selected_panos records tlat tlon count
        = (sorted_panos records tlat tlon).take count
    ∧ (records.length ≤ count →
        selected_panos records tlat tlon count = sorted_panos records tlat tlon)
    ∧ (∀ a b : PanoRecord,
        Real.sqrt ((sqDist a.lat a.lon tlat tlon : ℚ) : ℝ)
          = Real.sqrt ((sqDist b.lat b.lon tlat tlon : ℚ) : ℝ) →
        [a, b].Sublist records →
        [a, b].Sublist (sorted_panos records tlat tlon)) := by
  refine ⟨?_, List.perm_insertionSort _ _, rfl, ?_, ?_⟩
  · have h := List.sorted_insertionSort (panoKeyLe tlat tlon) records
    exact List.Pairwise.imp
      (fun hab => (sqDist_le_iff_sqrt_le _ _ _ _ _ _ _ _).mpr hab) h
  · intro h
    unfold selected_panos
    apply List.take_of_length_le
    rw [sorted_panos, List.length_insertionSort]
    exact h
  · intro a b heq hsub
    refine List.pair_sublist_insertionSort ?_ hsub
    have hq : sqDist a.lat a.lon tlat tlon = sqDist b.lat b.lon tlat tlon := by
      have h1 : ((sqDist a.lat a.lon tlat tlon : ℚ) : ℝ)
          = ((sqDist b.lat b.lon tlat tlon : ℚ) : ℝ) :=
        (Real.sqrt_inj (by exact_mod_cast sqDist_nonneg _ _ _ _)
          (by exact_mod_cast sqDist_nonneg _ _ _ _)).mp heq
      exact_mod_cast h1
    exact le_of_eq hq

/-- Concrete instantiation of `c1_selector_sorts_stably_and_truncates`:
two records at equal distance to the target keep their fetch order. -/
theorem c1_selector_witness :
    [⟨r"a", 1, 0, r"d1"⟩, ⟨r"b", 0, 1, r"d2"⟩].Sublist
      (sorted_panos [⟨r"a", 1, 0, r"d1"⟩, ⟨r"b", 0, 1, r"d2"⟩] 0 0) :=
  (c1_selector_sorts_stably_and_truncates
      [⟨r"a", 1, 0, r"d1"⟩, ⟨r"b", 0, 1, r"d2"⟩] 0 0 2).2.2.2.2
    ⟨r"a", 1, 0, r"d1"⟩ ⟨r"b", 0, 1, r"d2"⟩
    (by norm_num [sqDist]) (List.Sublist.refl _)

/-- The function `ceil_sqrt_quarter` computes the ceiling of the real square root of
`n / 4`. -/
theorem ceil_sqrt_quarter_eq (n : ℕ) :
    ceil_sqrt_quarter n = ⌈Real.sqrt ((n : ℝ) / 4)⌉₊ := by
  apply le_antisymm
  · set c := ⌈Real.sqrt ((n : ℝ) / 4)⌉₊ with hc
    have h0 : (0 : ℝ) ≤ (n : ℝ) / 4 := by positivity
    have hle : Real.sqrt ((n : ℝ) / 4) ≤ (c : ℝ) := Nat.le_ceil _
    have hsq : Real.sqrt ((n : ℝ) / 4) ^ 2 = (n : ℝ) / 4 := Real.sq_sqrt h0
    have hr : (n : ℝ) ≤ 4 * ((c : ℝ) * c) := by
      nlinarith [Real.sqrt_nonneg ((n : ℝ) / 4)]
    unfold ceil_sqrt_quarter
    exact Nat.find_min' (ceil_sqrt_quarter_exists n) (by exact_mod_cast hr)
  · rw [Nat.ceil_le]
    have hp : n ≤ 4 * (ceil_sqrt_quarter n * ceil_sqrt_quarter n) := by
      unfold ceil_sqrt_quarter
      exact Nat.find_spec (ceil_sqrt_quarter_exists n)
    set f := ceil_sqrt_quarter n with hf
    have hr : (n : ℝ) / 4 ≤ (f : ℝ) * f := by
      have h4 : (n : ℝ) ≤ 4 * ((f : ℝ) * f) := by exact_mod_cast hp
      linarith
    calc Real.sqrt ((n : ℝ) / 4) ≤ Real.sqrt ((f : ℝ) * f) := Real.sqrt_le_sqrt hr
      _ = f := by rw [← sq]; exact Real.sqrt_sq (by positivity)

/-- C2: for every `requestedCount` in `[1, 500]`, the search-window
expansion uses `radius = max 1 ⌈sqrt (requestedCount / 4)⌉` and the
window is exactly the set of tiles at integer offsets `(dx, dy)` with
`|dx| ≤ radius` and `|dy| ≤ radius` around the center tile; the window
contains the center tile and is a square of odd side `2 * radius + 1`. -/
theorem c2_search_window (n : ℕ) (h1 : 1 ≤ n) (h2 : n ≤ 500) (cx cy : ℤ) :
    search_radius n = max 1 ⌈Real.sqrt ((n : ℝ) / 4)⌉₊
    ∧ (∀ p : ℤ × ℤ,
        p ∈ tile_coords_to_check cx cy (search_radius n) ↔
          |p.1 - cx| ≤ (search_radius n : ℤ) ∧ |p.2 - cy| ≤ (search_radius n : ℤ))
    ∧ (cx, cy) ∈ tile_coords_to_check cx cy (search_radius n)
    ∧ (tile_coords_to_check cx cy (search_radius n)).card
        = (2 * search_radius n + 1) ^ 2 := by
  have hformula : search_radius n = max 1 ⌈Real.sqrt ((n : ℝ) / 4)⌉₊ := by
    unfold search_radius
    rw [ceil_sqrt_quarter_eq]
  set r := search_radius n with hrdef
  have hmem : ∀ p : ℤ × ℤ,
      p ∈ tile_coords_to_check cx cy r ↔
        |p.1 - cx| ≤ (r : ℤ) ∧ |p.2 - cy| ≤ (r : ℤ) := by
    intro p
    simp only [tile_coords_to_check, Finset.mem_image, Finset.mem_product,
      Finset.mem_Icc, abs_le]
    constructor
    · rintro ⟨⟨dx, dy⟩, ⟨⟨hdx1, hdx2⟩, hdy1, hdy2⟩, heq⟩
      have h1' : cx + dx = p.1 := by rw [← heq]
      have h2' : cy + dy = p.2 := by rw [← heq]
      omega
    · rintro ⟨⟨ha1, ha2⟩, hb1, hb2⟩
      exact ⟨(p.1 - cx, p.2 - cy), ⟨⟨by omega, by omega⟩, by omega, by omega⟩, by
        simp⟩
  refine ⟨hformula, hmem, ?_, ?_⟩
  · rw [hmem]
    simp
  · have hinj : Function.Injective (fun d : ℤ × ℤ => (cx + d.1, cy + d.2)) := by
      intro a b hab
      simp only [Prod.ext_iff, Prod.mk.injEq] at hab ⊢
      omega
    rw [tile_coords_to_check, Finset.card_image_of_injective _ hinj,
      Finset.card_product, Int.card_Icc]
    have hcard : ((r : ℤ) + 1 - -(r : ℤ)).toNat = 2 * r + 1 := by omega
    rw [hcard]
    ring

/-- Concrete instantiation of `c2_search_window` at `requestedCount = 16`
(radius 2) and center tile `(10, 20)`. -/
theorem c2_search_window_witness :
    search_radius 16 = max 1 ⌈Real.sqrt ((16 : ℝ) / 4)⌉₊
    ∧ (∀ p : ℤ × ℤ,
        p ∈ tile_coords_to_check 10 20 (search_radius 16) ↔
          |p.1 - 10| ≤ (search_radius 16 : ℤ) ∧ |p.2 - 20| ≤ (search_radius 16 : ℤ))
    ∧ (10, 20) ∈ tile_coords_to_check 10 20 (search_radius 16)
    ∧ (tile_coords_to_check 10 20 (search_radius 16)).card
        = (2 * search_radius 16 + 1) ^ 2 :=
  c2_search_window 16 (by norm_num) (by norm_num) 10 20

theorem foldl_fetchStep_append (tiles : List (Option CoverageTile))
    (acc : List PanoRecord) :
    tiles.foldl fetchStep acc
      = acc ++ ((tiles.filterMap (fun o => o)).map CoverageTile.panos).flatten := by
  induction tiles generalizing acc with
  | nil => simp
  | cons t ts ih =>
    cases t with
    | none => simp [List.foldl_cons, fetchStep, ih]
    | some tile =>
      simp only [List.foldl_cons, fetchStep, List.filterMap_cons]
      by_cases h : tile.panos.isEmpty
      · rw [if_pos h, ih]
        simp [List.isEmpty_iff.mp h]
      · rw [if_neg h, ih]
        simp [List.append_assoc]

/-- C3: given overlapping tile results containing the same panorama id
as different object instances, the merged index returned to the selector
is claimed to contain exactly one record per unique id.  It does not:
two tiles each carrying a record with id `"a"` yield a merged index in
which id `"a"` occurs twice. -/
theorem c3_no_dedup_counterexample :
    (fetchIndex [some ⟨[⟨r"a", 0, 0, r"2020"⟩]⟩,
        some ⟨[⟨r"a", 1, 1, r"2021"⟩]⟩]).map PanoRecord.id = [r"a", r"a"]
    ∧ ¬ ((fetchIndex [some ⟨[⟨r"a", 0, 0, r"2020"⟩]⟩,
        some ⟨[⟨r"a", 1, 1, r"2021"⟩]⟩]).map PanoRecord.id).Nodup := by
  constructor
  · rfl
  · decide

/-- C3 (amended): the merged panorama index is the concatenation, in
fetch order, of the successfully fetched tiles' record lists; no
deduplication by id is performed — a panorama id appearing in several
tile responses appears in the merged index once per occurrence. -/
theorem c3_merge_is_concat_without_dedup (tiles : List (Option CoverageTile)) :
    fetchIndex tiles
      = ((tiles.filterMap (fun o => o)).map CoverageTile.panos).flatten
    ∧ ∀ p : PanoRecord → Bool,
        (fetchIndex tiles).countP p
          = (((tiles.filterMap (fun o => o)).map CoverageTile.panos).map
              (List.countP p)).sum := by
  have h2 : fetchIndex tiles
      = ((tiles.filterMap (fun o => o)).map CoverageTile.panos).flatten := by
    simpa [fetchIndex] using foldl_fetchStep_append tiles []
  refine ⟨h2, fun p => ?_⟩
  rw [h2, List.countP_flatten]

theorem downloadFacesFrom_spec {F : Type} (fetch : ℕ → Except String F)
    (i : ℕ) (l1 l2 : List ℕ)
    (hok : ∀ j ∈ l1, ∃ f, fetch j = Except.ok f)
    (herr : ∃ e, fetch i = Except.error e) :
    (downloadFacesFrom fetch (l1 ++ i :: l2)).attempted = l1 ++ [i]
    ∧ (downloadFacesFrom fetch (l1 ++ i :: l2)).faces.length = l1.length
    ∧ (downloadFacesFrom fetch (l1 ++ i :: l2)).success = false := by
  induction l1 with
  | nil =>
    obtain ⟨e, he⟩ := herr
    simp [downloadFacesFrom, he]
  | cons a l1' ih =>
    obtain ⟨f, hf⟩ := hok a (by simp)
    have h' := ih (fun j hj => hok j (by simp [hj]))
    simp only [List.cons_append, downloadFacesFrom, hf]
    simp [h'.1, h'.2.1, h'.2.2]

theorem foldl_lookStep_shift {F I : Type}
    (panos : List ((ℕ → Except String F) × (List F → Except String I)))
    (a b : ℕ) :
    panos.foldl lookStep (a, b)
      = (a + (runLookaround panos).1, b + (runLookaround panos).2) := by
  induction panos generalizing a b with
  | nil => simp [runLookaround]
  | cons p ps ih =>
    simp only [runLookaround, List.foldl_cons, lookStep]
    by_cases hc : (processPanorama p.1 p.2).2 = true
    · rw [if_pos hc, if_pos hc, ih, ih, Prod.mk.injEq]
      omega
    · rw [if_neg hc, if_neg hc, ih, ih, Prod.mk.injEq]
      omega

/-- C4: if fetching face `i` of a panorama fails (all earlier faces
having succeeded), the remaining faces are not fetched — exactly the
faces `0..i` were attempted; fewer than 6 faces are present, so
equirectangular assembly is refused (for any face set of fewer than 6
faces) and no output is produced; the panorama counts as one failed
download and processing continues with the remaining panoramas. -/
theorem c4_face_failure_aborts_panorama {F I : Type}
    (fetch : ℕ → Except String F)
    (to_equirectangular : List F → Except String I)
    (i : ℕ) (hi : i < 6)
    (hok : ∀ j, j < i → ∃ f, fetch j = Except.ok f)
    (herr : ∃ e, fetch i = Except.error e) :
    (downloadFaces fetch).attempted = List.range (i + 1)
    ∧ (downloadFaces fetch).faces.length = i
    ∧ (downloadFaces fetch).success = false
    ∧ processPanorama fetch to_equirectangular = (none, false)
    ∧ (∀ d : FaceDownload F, d.faces.length < 6 →
        (assembleStep d to_equirectangular).1 = none)
    ∧ ∀ rest : List ((ℕ → Except String F) × (List F → Except String I)),
        runLookaround ((fetch, to_equirectangular) :: rest)
          = ((runLookaround rest).1, (runLookaround rest).2 + 1) := by
  have hsplit : List.range 6 = List.range i ++ i :: List.drop (i + 1) (List.range 6) := by
    interval_cases i <;> rfl
  have hspec := downloadFacesFrom_spec fetch i (List.range i)
    (List.drop (i + 1) (List.range 6))
    (fun j hj => hok j (List.mem_range.mp hj)) herr
  have hdl : downloadFaces fetch = downloadFacesFrom fetch (List.range 6) := rfl
  rw [hsplit] at hdl
  have hatt : (downloadFaces fetch).attempted = List.range (i + 1) := by
    rw [hdl, hspec.1, List.range_succ]
  have hlen : (downloadFaces fetch).faces.length = i := by
    rw [hdl, hspec.2.1, List.length_range]
  have hsucc : (downloadFaces fetch).success = false := by
    rw [hdl, hspec.2.2]
  have hrefuse : ∀ d : FaceDownload F, d.faces.length < 6 →
      (assembleStep d to_equirectangular).1 = none := by
    intro d hd
    rw [assembleStep, if_neg]
    rintro ⟨-, h6⟩
    omega
  have hproc : processPanorama fetch to_equirectangular = (none, false) := by
    rw [processPanorama, assembleStep, if_neg]
    rintro ⟨hs, -⟩
    rw [hsucc] at hs
    exact Bool.false_ne_true hs
  refine ⟨hatt, hlen, hsucc, hproc, hrefuse, fun rest => ?_⟩
  have hstep : lookStep (0, 0) (fetch, to_equirectangular) = (0, 1) := by
    rw [lookStep]
    simp [hproc]
  rw [runLookaround, List.foldl_cons, hstep, foldl_lookStep_shift]
  rw [Prod.mk.injEq]
  omega

/-- Concrete instantiation of `c4_face_failure_aborts_panorama`: the
fetcher fails at face 2 after faces 0 and 1 succeeded. -/
theorem c4_face_failure_witness :
    (downloadFaces (fun j => if j < 2 then Except.ok j
        else Except.error (r"boom"))).attempted = List.range 3
    ∧ (downloadFaces (fun j => if j < 2 then Except.ok j
        else Except.error (r"boom"))).faces.length = 2
    ∧ (downloadFaces (fun j => if j < 2 then Except.ok j
        else Except.error (r"boom"))).success = false
    ∧ processPanorama (fun j => if j < 2 then Except.ok j
        else Except.error (r"boom")) (fun _ => Except.ok (0 : ℕ)) = (none, false)
    ∧ (∀ d : FaceDownload ℕ, d.faces.length < 6 →
        (assembleStep d (fun _ => Except.ok (0 : ℕ))).1 = none)
    ∧ ∀ rest : List ((ℕ → Except String ℕ) × (List ℕ → Except String ℕ)),
        runLookaround (((fun j => if j < 2 then Except.ok j
            else Except.error (r"boom")), (fun _ => Except.ok (0 : ℕ))) :: rest)
          = ((runLookaround rest).1, (runLookaround rest).2 + 1) :=
  c4_face_failure_aborts_panorama
    (fun j => if j < 2 then Except.ok j else Except.error (r"boom"))
    (fun _ => Except.ok (0 : ℕ)) 2 (by norm_num)
    (fun j hj => ⟨j, by simp [hj]⟩) ⟨r"boom", by simp⟩

/-- C5: the claim — for every tile mosaic with at least one missing
cell, stitching still produces an output image of the full expected
dimensions — fails on the mosaic whose cells are all missing: the
stitcher counts zero loaded tiles, aborts, and produces no output
image at all. -/
theorem c5_stitch_counterexample :
    stitch_tiles 1 1 (fun _ _ => none) = none
    ∧ (fun _ _ => (none : Option Tile)) 0 0 = none := by
  exact ⟨rfl, rfl⟩

/-- C5 (amended): for every tile mosaic with at least one missing cell
and at least one successfully loaded cell, stitching produces an output
image of the full expected dimensions `STANDARD_TILE_W * x_tiles` by
`STANDARD_TILE_H * y_tiles`, with every missing cell rendered as a fully
black block; only the all-missing mosaic is rejected. -/
theorem c5_stitch_black_fill
    (x_tiles y_tiles : ℕ) (tileAt : ℕ → ℕ → Option Tile)
    (hloaded : ∃ c : ℕ × ℕ, c.1 < x_tiles ∧ c.2 < y_tiles ∧
      (tileAt c.1 c.2).isSome = true)
    (hmissing : ∃ c : ℕ × ℕ, c.1 < x_tiles ∧ c.2 < y_tiles ∧
      tileAt c.1 c.2 = none) :
    ∃ img : Img, stitch_tiles x_tiles y_tiles tileAt = some img
      ∧ img.w = STANDARD_TILE_W * x_tiles
      ∧ img.h = STANDARD_TILE_H * y_tiles
      ∧ ∀ x y : ℕ, x < x_tiles → y < y_tiles → tileAt x y = none →
          ∀ u v : ℕ, u < STANDARD_TILE_W → v < STANDARD_TILE_H →
            img.px (STANDARD_TILE_W * x + u) (STANDARD_TILE_H * y + v)
              = (0, 0, 0) := by
  obtain ⟨c, hcx, hcy, hcsome⟩ := hloaded
  have hmem : c ∈ mosaic_cells x_tiles y_tiles := by
    rw [mosaic_cells]
    simp only [List.mem_flatMap, List.mem_map, List.mem_range]
    exact ⟨c.2, hcy, c.1, hcx, rfl⟩
  have hpos : 0 < List.countP (fun c => (tileAt c.1 c.2).isSome)
      (mosaic_cells x_tiles y_tiles) :=
    List.countP_pos_iff.mpr ⟨c, hmem, hcsome⟩
  have hcnt : loaded_tile_count x_tiles y_tiles tileAt ≠ 0 := by
    rw [loaded_tile_count]
    omega
  rw [stitch_tiles, if_neg hcnt]
  refine ⟨⟨STANDARD_TILE_W * x_tiles, STANDARD_TILE_H * y_tiles,
    stitch_px tileAt⟩, rfl, rfl, rfl, ?_⟩
  intro x y hx hy hnone u v hu hv
  have hW : 0 < STANDARD_TILE_W := by norm_num [STANDARD_TILE_W]
  have hH : 0 < STANDARD_TILE_H := by norm_num [STANDARD_TILE_H]
  have h1 : (STANDARD_TILE_W * x + u) / STANDARD_TILE_W = x := by
    rw [Nat.mul_add_div hW, Nat.div_eq_of_lt hu]
    omega
  have h2 : (STANDARD_TILE_H * y + v) / STANDARD_TILE_H = y := by
    rw [Nat.mul_add_div hH, Nat.div_eq_of_lt hv]
    omega
  show stitch_px tileAt (STANDARD_TILE_W * x + u) (STANDARD_TILE_H * y + v)
    = (0, 0, 0)
  unfold stitch_px
  rw [h1, h2, hnone]

/-- Concrete instantiation of `c5_stitch_black_fill`: a 2 × 1 mosaic
whose left cell is loaded and whose right cell is missing. -/
theorem c5_stitch_black_fill_witness :
    ∃ img : Img, stitch_tiles 2 1 demo_tileAt = some img
      ∧ img.w = STANDARD_TILE_W * 2
      ∧ img.h = STANDARD_TILE_H * 1
      ∧ ∀ x y : ℕ, x < 2 → y < 1 → demo_tileAt x y = none →
          ∀ u v : ℕ, u < STANDARD_TILE_W → v < STANDARD_TILE_H →
            img.px (STANDARD_TILE_W * x + u) (STANDARD_TILE_H * y + v)
              = (0, 0, 0) :=
  c5_stitch_black_fill 2 1 demo_tileAt
    ⟨(0, 0), by norm_num, by norm_num, rfl⟩
    ⟨(1, 0), by norm_num, by norm_num, rfl⟩

/-- C6: under the default configuration (`num_pics = 8`) the projector
generates exactly 24 perspective images — the cross product of pitches
`{-30, 0, 30}` with the 8 yaws evenly spaced at `360 / 8` degrees
starting at 0 — and each output file name carries the matching yaw and
pitch of its sample. -/
theorem c6_projector_sampling_grid (e_img : Img) (file_name : String) (fov : ℚ) :
    num_pics = 8
    ∧ pitch_vals = [-30, 0, 30]
    ∧ yaw_vals = (List.range 8).map (fun i => i * (360 / 8))
    ∧ yaw_vals = [0, 45, 90, 135, 180, 225, 270, 315]
    ∧ tasks.length = 24
    ∧ (perspective_outputs e_img file_name fov).length = 24
    ∧ (perspective_outputs e_img file_name fov).map Prod.snd
        = tasks.map (fun t =>
            file_name ++ "_split_" ++ toString t.2 ++ "_" ++ toString t.1
              ++ ".jpg") := by
  refine ⟨rfl, rfl, rfl, by decide, rfl, rfl, ?_⟩
  rw [perspective_outputs, List.map_map]
  rfl

/-- C7: the claim — each selected panorama that is processed increments
exactly one of the two counters, so `succeeded + failed` equals the
number of selected panoramas — fails in the streetview pipeline: a
panorama whose `find_panorama_by_id` lookup returns no result (without
raising) increments neither counter. -/
theorem c7_counters_counterexample :
    (runStreetview [Except.ok none]).1 + (runStreetview [Except.ok none]).2
      ≠ ([Except.ok none] : List (Except String (Option Unit))).length := by
  decide

theorem foldl_streetStep_shift (outcomes : List (Except String (Option Unit)))
    (a b : ℕ) :
    outcomes.foldl streetStep (a, b)
      = (a + (runStreetview outcomes).1, b + (runStreetview outcomes).2) := by
  induction outcomes generalizing a b with
  | nil => simp [runStreetview]
  | cons o os ih =>
    rcases o with e | op
    · simp only [runStreetview, List.foldl_cons, streetStep]
      rw [ih, ih, Prod.mk.injEq]
      omega
    · rcases op with _ | u
      · simp only [runStreetview, List.foldl_cons, streetStep]
        rw [ih, ih, Prod.mk.injEq]
        omega
      · simp only [runStreetview, List.foldl_cons, streetStep]
        rw [ih, ih, Prod.mk.injEq]
        omega

/-- C7 (amended): in the lookaround pipeline every selected panorama
increments exactly one counter, so `succeeded + failed` equals the
number of selected panoramas; in the streetview pipeline a panorama
whose lookup returns no result increments neither counter, so
`succeeded + failed` equals the number of selected panoramas minus the
number of silent no-result lookups. -/
theorem c7_counters_sum {F I : Type}
    (panos : List ((ℕ → Except String F) × (List F → Except String I)))
    (outcomes : List (Except String (Option Unit))) :
    (runLookaround panos).1 + (runLookaround panos).2 = panos.length
    ∧ (runStreetview outcomes).1 + (runStreetview outcomes).2
        + outcomes.countP (fun o => match o with
            | Except.ok none => true
            | _ => false)
        = outcomes.length := by
  constructor
  · induction panos with
    | nil => rfl
    | cons p ps ih =>
      by_cases hc : (processPanorama p.1 p.2).2 = true
      · rw [runLookaround, List.foldl_cons, lookStep, if_pos hc,
          foldl_lookStep_shift, List.length_cons]
        omega
      · rw [runLookaround, List.foldl_cons, lookStep, if_neg hc,
          foldl_lookStep_shift, List.length_cons]
        omega
  · induction outcomes with
    | nil => rfl
    | cons o os ih =>
      rcases o with e | op
      · rw [runStreetview, List.foldl_cons, List.countP_cons, List.length_cons]
        simp only [streetStep]
        rw [foldl_streetStep_shift]
        norm_num
        omega
      · rcases op with _ | u
        · rw [runStreetview, List.foldl_cons, List.countP_cons, List.length_cons]
          simp only [streetStep]
          rw [foldl_streetStep_shift]
          norm_num
          omega
        · rw [runStreetview, List.foldl_cons, List.countP_cons, List.length_cons]
          simp only [streetStep]
          rw [foldl_streetStep_shift]
          norm_num
          omega

/-- C8: for every completed run, the process exits with a nonzero status
exactly when `succeeded = 0`, and when `succeeded > 0` with `failed > 0`
it exits with status zero while printing the degraded-success warning. -/
theorem c8_exit_status (succeeded failed : ℕ) :
    ((final_report succeeded failed).1 ≠ 0 ↔ succeeded = 0)
    ∧ ((final_report succeeded failed).1 = 0 ∧ (final_report succeeded failed).2 = true
        ↔ succeeded ≠ 0 ∧ 0 < failed) := by
  rw [final_report]
  by_cases h : succeeded = 0 <;> simp [h]

/-- C9: the claim — both provider pipelines name equirectangular images
`{panoramaId}_{zoom}.jpg` and perspective images
`{panoramaId}_split_{yaw}_{pitch}.jpg` — fails on the streetview
pipeline, which prefixes `google_`, and on the perspective naming, which
uses the input file's stem `{panoramaId}_{zoom}` rather than the bare
panorama id. -/
theorem c9_naming_counterexample :
    out_file (r"abc") 2 ≠ output_filename (r"abc") 2
    ∧ out_file (r"abc") 2 = "google_abc_2.jpg"
    ∧ out_file_name (file_name_of (output_filename (r"abc") 2)) 0 (-30)
        = "abc_2_split_0_-30.jpg"
    ∧ out_file_name (file_name_of (output_filename (r"abc") 2)) 0 (-30)
        ≠ "abc_split_0_-30.jpg" := by
  refine ⟨by decide, by decide, by decide, by decide⟩

/-- C9 (amended): the lookaround pipeline names equirectangular images
`{panoramaId}_{zoom}.jpg`; the streetview pipeline names them
`google_{panoramaId}_{zoom}.jpg`; perspective images are named
`{stem}_split_{yaw}_{pitch}.jpg` where `stem` is the input file's
basename up to the first dot (hence `{panoramaId}_{zoom}` for a
lookaround output). -/
theorem c9_naming_convention (id stem : String) (zoom yaw : ℕ) (pitch : ℤ) :
    output_filename id zoom = id ++ "_" ++ toString zoom ++ ".jpg"
    ∧ out_file id zoom = "google_" ++ id ++ "_" ++ toString zoom ++ ".jpg"
    ∧ out_file_name stem yaw pitch
        = stem ++ "_split_" ++ toString yaw ++ "_" ++ toString pitch ++ ".jpg"
    ∧ file_name_of (output_filename (r"abc") 2) = "abc_2" := by
  refine ⟨rfl, rfl, rfl, by decide⟩

/-- C10: every perspective image the projector emits has fixed
dimensions 1024 × 1024, for every source raster, field of view, yaw and
pitch: the output size passed to `e2p` is the hardcoded `(1024, 1024)`. -/
theorem c10_perspective_output_size_fixed (e_img : Img) (file_name : String)
    (fov : ℚ) (pitch : ℤ) (yaw : ℕ) :
    (generate_and_save e_img file_name fov pitch yaw).1.w = 1024
    ∧ (generate_and_save e_img file_name fov pitch yaw).1.h = 1024 :=
  ⟨rfl, rfl⟩

end Toolbelt
